import Mathlib

/-!
Verification of the icecast-ripper recording/polling subsystem.

The definitions below are a shallow embedding of the Go source:
  - internal/recorder/recorder.go   (the variant the claims cite by line
    number: StartRecording at 350, recordStream at 378, CleanOldRecordings
    at 522, sanitizeFilename at 556)
  - internal/scheduler/scheduler.go
  - internal/streamchecker/streamchecker.go
Pure functions become Lean functions; lock-protected mutations become
atomic transitions of an explicit state; filesystem and network effects
become oracle inputs recording how each external call would resolve.
-/

namespace IcecastRipper

/-! ## sanitizeFilename (recorder.go 298-309, 556-559)

`filenameSanitizer` is a `strings.NewReplacer` whose patterns are all
single characters, so it acts as a per-character map; `sanitizeFilename`
applies it and then `strings.Trim(cleaned, "_-. ")`. -/

/-- The single-character replacement performed by `filenameSanitizer`
(recorder.go lines 298-309).  Go `strings.NewReplacer` with ten
one-character patterns maps each character independently.  Note the
double quote is replaced by the apostrophe character (code 39). -/
def replaceChar (c : Char) : Char :=
  if c = ' ' then '_'
  else if c = '/' then '-'
  else if c = '\\' then '-'
  else if c = ':' then '-'
  else if c = '*' then '-'
  else if c = '?' then '-'
  else if c = '"' then Char.ofNat 39
  else if c = '<' then '-'
  else if c = '>' then '-'
  else if c = '|' then '-'
  else c

/-- `filenameSanitizer.Replace` on a string, character by character. -/
def filenameSanitizerReplace (s : List Char) : List Char :=
  s.map replaceChar

/-- The cut set of `strings.Trim(cleaned, "_-. ")`: underscore, hyphen,
dot and space. -/
def trimCut (c : Char) : Bool :=
  c == '_' || c == '-' || c == '.' || c == ' '

/-- Go `strings.Trim`: drop leading and trailing characters of the cut set. -/
def goTrim (s : List Char) : List Char :=
  ((s.dropWhile trimCut).reverse.dropWhile trimCut).reverse

/-- `sanitizeFilename` (recorder.go lines 556-559). -/
def sanitizeFilename (s : List Char) : List Char :=
  goTrim (filenameSanitizerReplace s)

/-- The filesystem-unsafe characters named by the spec:
space, slash, backslash, colon, star, question mark, double quote,
less-than, greater-than, vertical bar. -/
def isUnsafeChar (c : Char) : Bool :=
  c == ' ' || c == '/' || c == '\\' || c == ':' || c == '*' ||
  c == '?' || c == '"' || c == '<' || c == '>' || c == '|'

/-! ## Stream checker (streamchecker.go 57-85, IsLiveWithContext)

The probe issues one GET.  Three externally determined outcomes:
request construction fails, the HTTP client call fails, or a response
with some status code arrives. -/

/-- How the single HTTP probe of `IsLiveWithContext` resolves. -/
inductive ProbeOutcome where
  | buildErr
  | connErr
  | response (status : Nat)
deriving DecidableEq

/-- The `(bool, error)` pair returned by `IsLiveWithContext`. -/
structure ProbeResult where
  isLive : Bool
  err : Option String
deriving DecidableEq

/-- `IsLiveWithContext` (streamchecker.go lines 57-85): a request-build
error is returned as a wrapped error; a failed `client.Do` is reported
as not-live with nil error; a response is live exactly on status 200. -/
def IsLiveWithContext : ProbeOutcome → ProbeResult
  | ProbeOutcome.buildErr => ⟨false, some "failed to create request"⟩
  | ProbeOutcome.connErr => ⟨false, none⟩
  | ProbeOutcome.response status =>
      if status = 200 then ⟨true, none⟩ else ⟨false, none⟩

/-! ## Recorder slot state machine (recorder.go 344-400)

The mutex-protected fields `isRecording` and `cancelFunc`, together with
the cancelled flag of the recording context the stored cancel function
controls.  Each lock-protected section of the Go code is one atomic
transition. -/

/-- The lock-protected recorder fields plus the cancellation status of
the current recording context. -/
structure RecorderState where
  isRecording : Bool
  cancelFunc : Option Unit
  ctxCancelled : Bool
deriving DecidableEq

/-- A freshly constructed recorder: slot idle, no stored cancel. -/
def initialRecorder : RecorderState := ⟨false, none, false⟩

/-- `StartRecording` (recorder.go lines 350-366): under the lock, an
active slot returns the already-recording error and leaves the state
alone; otherwise the cancel handle is stored and the flag set, the
download goroutine is launched, and nil is returned.  The stream URL is
not inspected at all on this path. -/
def StartRecording (s : RecorderState) (streamURL : String) :
    RecorderState × Option String :=
  if s.isRecording then (s, some "recording already in progress")
  else (⟨true, some (), false⟩, none)

/-- `StopRecording` (recorder.go lines 368-376): under the lock, if the
slot is active and a cancel handle is stored, invoke it.  Invoking a Go
`context.CancelFunc` cancels the associated context and is idempotent,
so the effect is setting the cancelled flag.  No recorder field is
written. -/
def StopRecording (s : RecorderState) : RecorderState :=
  if s.isRecording = true ∧ s.cancelFunc.isSome = true then
    { s with ctxCancelled := true }
  else s

/-- `n` successive `StopRecording` calls. -/
def iterStop : Nat → RecorderState → RecorderState
  | 0, s => s
  | n + 1, s => iterStop n (StopRecording s)

/-- The deferred cleanup at the top of `recordStream` (recorder.go lines
383-387): under the lock, clear the flag and the cancel handle together. -/
def recordStreamCleanup (s : RecorderState) : RecorderState :=
  { s with isRecording := false, cancelFunc := none }

/-- One atomic lock-protected section, as observed in a serialization of
concurrent calls: a `StartRecording` call with some URL, the recording
task's deferred cleanup, or a `StopRecording` call. -/
inductive RecEvent where
  | startCall (url : String)
  | finish
  | stopCall
deriving DecidableEq

/-- Effect of one event on the recorder state. -/
def stepEvent (s : RecorderState) : RecEvent → RecorderState
  | RecEvent.startCall url => (StartRecording s url).1
  | RecEvent.finish => recordStreamCleanup s
  | RecEvent.stopCall => StopRecording s

/-- Run a serialized sequence of lock-protected sections. -/
def runEvents (s : RecorderState) : List RecEvent → RecorderState
  | [] => s
  | e :: es => runEvents (stepEvent s e) es

/-- Number of `StartRecording` calls in the sequence that return nil
(success). -/
def succCount (s : RecorderState) : List RecEvent → Nat
  | [] => 0
  | RecEvent.startCall url :: es =>
      (if (StartRecording s url).2 = none then 1 else 0) +
        succCount (StartRecording s url).1 es
  | e :: es => succCount (stepEvent s e) es

/-- True when the sequence contains no recording-task cleanup, i.e. the
slot never returns to idle by a task ending. -/
def noFinishEvent (es : List RecEvent) : Bool :=
  es.all fun e => match e with
    | RecEvent.finish => false
    | _ => true

/-! ## downloadStream (recorder.go 456-494) -/

/-- How `io.Copy` of the response body terminates. -/
inductive CopyEnd where
  | ok
  | canceled
  | unexpectedEOF
  | connReset
  | brokenPipe
  | other
deriving DecidableEq

/-- `isNormalDisconnect` (recorder.go lines 496-500): unexpected EOF,
connection reset by peer, broken pipe. -/
def isNormalDisconnect : CopyEnd → Bool
  | CopyEnd.unexpectedEOF => true
  | CopyEnd.connReset => true
  | CopyEnd.brokenPipe => true
  | _ => false

/-- How the HTTP request of `downloadStream` resolves: request build
error, `client.Do` failing with a cancellation, `client.Do` failing
otherwise, or a response with a status code followed by a body copy
writing some bytes and ending in one of the `CopyEnd` ways. -/
inductive HttpStep where
  | buildErr
  | doCanceled
  | doErr
  | response (status : Nat) (bytes : Nat) (copyEnd : CopyEnd)
deriving DecidableEq

/-- The error classification that `recordStream` can observe from
`downloadStream`: either the error satisfies
`errors.Is(err, context.Canceled)` or it is some other failure. -/
inductive DlError where
  | canceled
  | failure
deriving DecidableEq

/-- `downloadStream` (recorder.go lines 456-494): build errors, connect
errors and non-200 statuses return zero bytes and an error; the copy
returns its byte count, with cancellation passed through, normal
disconnects mapped to nil, and anything else wrapped as a failure. -/
def downloadStream : HttpStep → Nat × Option DlError
  | HttpStep.buildErr => (0, some DlError.failure)
  | HttpStep.doCanceled => (0, some DlError.canceled)
  | HttpStep.doErr => (0, some DlError.failure)
  | HttpStep.response status bytes copyEnd =>
      if status ≠ 200 then (0, some DlError.failure)
      else match copyEnd with
        | CopyEnd.ok => (bytes, none)
        | CopyEnd.canceled => (bytes, some DlError.canceled)
        | ce =>
            if isNormalDisconnect ce then (bytes, none)
            else (bytes, some DlError.failure)

/-! ## recordStream (recorder.go 378-454) -/

/-- Outcome of `moveToFinalLocation` (recorder.go lines 449-454):
`os.Rename` succeeded, or the copy fallback succeeded, or both failed
(a non-nil error is returned). -/
inductive MoveOutcome where
  | renamed
  | copied
  | failed
deriving DecidableEq

/-- `moveToFinalLocation`: try `os.Rename` first, fall back to
`copyFile`. -/
def moveToFinalLocation (renameOk copyOk : Bool) : MoveOutcome :=
  if renameOk then MoveOutcome.renamed
  else if copyOk then MoveOutcome.copied
  else MoveOutcome.failed

/-- How each filesystem call made by `recordStream` would resolve. -/
structure FsOracle where
  tempCreateOk : Bool
  closeOk : Bool
  renameOk : Bool
  copyOk : Bool
  removeOk : Bool
deriving DecidableEq

/-- Observable outcome of one `recordStream` run: the deferred cleanup
released the slot; a file was published at the final path; a file is
still present at the temp path afterwards. -/
structure RecordResult where
  slotCleared : Bool
  published : Bool
  tempPreserved : Bool
deriving DecidableEq

/-- The tail of `recordStream` after a nil or cancellation download
error (recorder.go lines 428-439 plus the deferred cleanup at 383-400):
zero bytes are discarded with the temp file removed; otherwise the move
is attempted, a failed move preserves the temp file, a rename leaves
nothing at the temp path, and a copy leaves the source to be removed by
the deferred cleanup. -/
def afterDownload (fs : FsOracle) (bytes : Nat) : RecordResult :=
  if bytes = 0 then ⟨true, false, !fs.removeOk⟩
  else match moveToFinalLocation fs.renameOk fs.copyOk with
    | MoveOutcome.renamed => ⟨true, true, false⟩
    | MoveOutcome.copied => ⟨true, true, !fs.removeOk⟩
    | MoveOutcome.failed => ⟨true, false, true⟩

/-- `recordStream` (recorder.go lines 378-440), given the download
result.  A temp-file creation error returns with no file; a close error
is promoted to the download error only when that was nil; a
non-cancellation error sets `moveErr` and returns, so the deferred
cleanup preserves the temp file; cancellation falls through to the
publish path. -/
def recordStream (fs : FsOracle) (dl : Nat × Option DlError) : RecordResult :=
  if fs.tempCreateOk = false then ⟨true, false, false⟩
  else
    let err := match dl.2 with
      | none => if fs.closeOk then none else some DlError.failure
      | some e => some e
    match err with
    | some DlError.failure => ⟨true, false, true⟩
    | some DlError.canceled => afterDownload fs dl.1
    | none => afterDownload fs dl.1

/-! ## CleanOldRecordings (recorder.go 522-554) -/

/-- One entry of the non-recursive `os.ReadDir` listing, with oracle
bits for the outcome of `entry.Info()` and `os.Remove`. -/
structure DirEntry where
  name : List Char
  isDir : Bool
  modTime : Int
  statOk : Bool
  removeOk : Bool
deriving DecidableEq

/-- `strings.HasSuffix(strings.ToLower(name), ".mp3")`. -/
def hasMp3Suffix (name : List Char) : Bool :=
  ".mp3".toList.isSuffixOf (name.map Char.toLower)

/-- Whether the loop body reaches `os.Remove` for this entry: not a
directory, recording extension, stat succeeded, modification time
strictly before the cutoff. -/
def removeAttempted (cutoff : Int) (e : DirEntry) : Bool :=
  !e.isDir && hasMp3Suffix e.name && e.statOk && decide (e.modTime < cutoff)

/-- The deletion loop of `CleanOldRecordings` (recorder.go lines
531-551): directories and non-mp3 names are skipped, stat failures are
skipped, entries older than the cutoff are removed, and only successful
removals are counted. -/
def cleanLoop (cutoff : Int) : List DirEntry → Nat
  | [] => 0
  | e :: es =>
      if e.isDir || !hasMp3Suffix e.name then cleanLoop cutoff es
      else if !e.statOk then cleanLoop cutoff es
      else if e.modTime < cutoff then
        if e.removeOk then 1 + cleanLoop cutoff es else cleanLoop cutoff es
      else cleanLoop cutoff es

/-- `CleanOldRecordings` (recorder.go lines 522-554): a directory-read
error returns `(0, err)`; otherwise the cutoff is `now - maxAge` and the
loop runs over the listing. -/
def CleanOldRecordings (now maxAge : Int) (readDirOk : Bool)
    (entries : List DirEntry) : Nat × Option String :=
  if readDirOk = false then (0, some "failed to read recordings directory")
  else (cleanLoop (now - maxAge) entries, none)

/-- The spec-side characterization of the files the sweep must delete:
a non-directory entry with the recording extension strictly older than
the cutoff. -/
def oldMp3 (cutoff : Int) (e : DirEntry) : Bool :=
  !e.isDir && hasMp3Suffix e.name && decide (e.modTime < cutoff)

/-! ## Scheduler retention throttle (scheduler.go 81-95) -/

/-- One hour, in the seconds used as the model's time unit. -/
def oneHour : Int := 3600

/-- The scheduler fields read and written by `cleanupIfNeeded`, plus a
ghost counter of how many times `CleanOldRecordings` has been invoked. -/
structure SchedulerRetention where
  retentionMaxAge : Int
  lastCleanup : Int
  sweeps : Nat
deriving DecidableEq

/-- `cleanupIfNeeded` (scheduler.go lines 81-95) at time `now`:
return immediately when retention is disabled or less than one hour has
elapsed since `lastCleanup`; otherwise set `lastCleanup := now` and then
invoke `CleanOldRecordings`.  `sweepErr` says whether that invocation
fails; the code only logs it, so the resulting state does not depend on
it. -/
def cleanupIfNeeded (s : SchedulerRetention) (now : Int) (sweepErr : Bool) :
    SchedulerRetention :=
  if s.retentionMaxAge ≤ 0 ∨ now - s.lastCleanup < oneHour then s
  else ⟨s.retentionMaxAge, now, s.sweeps + 1⟩

/-! ## Context propagation from Scheduler.Stop (scheduler.go 48-59,
97-117; recorder.go 350-366)

`Start` stores `s.cancel` for a context derived from the lifecycle
context (scheduler.go line 50); the run loop hands that derived context
to `checkAndRecord`, which passes it to `StartRecording` (line 111);
`StartRecording` derives the recording context from it with
`context.WithCancel` (recorder.go line 358).  By the Go context
contract, cancelling a context cancels every context derived from it,
so each Done flag below is the disjunction of the own cancel flag and
the ancestor flags. -/

/-- Cancel flags of the three contexts: the lifecycle context given to
`Scheduler.Start`, the loop context whose cancel is stored in
`s.cancel`, and the recording context whose cancel is stored in
`r.cancelFunc`. -/
structure CtxTree where
  rootCancelled : Bool
  loopCancelFlag : Bool
  recCancelFlag : Bool
deriving DecidableEq

/-- Done status of the scheduler loop context. -/
def loopCtxDone (c : CtxTree) : Bool :=
  c.rootCancelled || c.loopCancelFlag

/-- Done status of the recording context created by `StartRecording`
from the loop context. -/
def recordingCtxDone (c : CtxTree) : Bool :=
  loopCtxDone c || c.recCancelFlag

/-- `Scheduler.Stop` (scheduler.go lines 55-59): invoke `s.cancel()`,
cancelling the loop context, then wait for the loop goroutine. -/
def schedulerStop (c : CtxTree) : CtxTree :=
  { c with loopCancelFlag := true }

/-! ## Helper lemmas -/

theorem replaceChar_not_unsafe (c : Char) : isUnsafeChar (replaceChar c) = false := by
  unfold replaceChar isUnsafeChar
  repeat' split
  all_goals simp_all [Char.ofNat]

theorem filenameSanitizerReplace_not_unsafe (s : List Char) :
    ∀ c ∈ filenameSanitizerReplace s, isUnsafeChar c = false := by
  intro c hc
  rcases List.mem_map.mp hc with ⟨d, _, rfl⟩
  exact replaceChar_not_unsafe d

theorem dropWhile_head_not (p : Char → Bool) (l : List Char) (x : Char)
    (h : (l.dropWhile p).head? = some x) : p x = false := by
  induction l with
  | nil => simp [List.dropWhile] at h
  | cons a t ih =>
      by_cases hpa : p a = true
      · simp [List.dropWhile, hpa] at h
        exact ih h
      · simp [List.dropWhile, hpa] at h
        subst h
        simpa using hpa

theorem dropWhile_getLast (p : Char → Bool) (l : List Char)
    (h : l.dropWhile p ≠ []) : (l.dropWhile p).getLast? = l.getLast? := by
  induction l with
  | nil => simp [List.dropWhile] at h
  | cons a t ih =>
      by_cases hpa : p a = true
      · rw [List.dropWhile_cons_of_pos hpa] at h ⊢
        rw [ih h]
        rcases t with _ | ⟨b, u⟩
        · simp [List.dropWhile] at h
        · rw [List.getLast?_cons_cons]
      · rw [List.dropWhile_cons_of_neg hpa]

/-- The first character of `goTrim s`, when there is one, is outside the
cut set. -/
theorem goTrim_head (s : List Char) (x : Char)
    (h : (goTrim s).head? = some x) : trimCut x = false := by
  unfold goTrim at h
  rw [List.head?_reverse] at h
  have hne : (s.dropWhile trimCut).reverse.dropWhile trimCut ≠ [] := by
    intro he
    rw [he] at h
    simp at h
  rw [dropWhile_getLast _ _ hne, List.getLast?_reverse] at h
  exact dropWhile_head_not _ _ _ h

/-- The last character of `goTrim s`, when there is one, is outside the
cut set. -/
theorem goTrim_getLast (s : List Char) (x : Char)
    (h : (goTrim s).getLast? = some x) : trimCut x = false := by
  unfold goTrim at h
  rw [List.getLast?_reverse] at h
  exact dropWhile_head_not _ _ _ h

theorem stepEvent_inv (s : RecorderState) (e : RecEvent)
    (h : s.cancelFunc.isSome = s.isRecording) :
    (stepEvent s e).cancelFunc.isSome = (stepEvent s e).isRecording := by
  cases e with
  | startCall url =>
      simp only [stepEvent, StartRecording]
      split
      · exact h
      · rfl
  | finish => simp [stepEvent, recordStreamCleanup]
  | stopCall =>
      simp only [stepEvent, StopRecording]
      split
      · simpa using h
      · exact h

theorem runEvents_inv (es : List RecEvent) : ∀ s : RecorderState,
    s.cancelFunc.isSome = s.isRecording →
    (runEvents s es).cancelFunc.isSome = (runEvents s es).isRecording := by
  induction es with
  | nil => intro s h; exact h
  | cons e es ih =>
      intro s h
      exact ih (stepEvent s e) (stepEvent_inv s e h)

theorem stopRecording_isRecording (s : RecorderState) :
    (StopRecording s).isRecording = s.isRecording := by
  unfold StopRecording
  split <;> rfl

theorem noFinishEvent_cons (e : RecEvent) (es : List RecEvent)
    (h : noFinishEvent (e :: es) = true) : noFinishEvent es = true := by
  simp only [noFinishEvent, List.all_cons, Bool.and_eq_true] at h
  exact h.2

theorem succCount_active (es : List RecEvent) : ∀ s : RecorderState,
    noFinishEvent es = true → s.isRecording = true → succCount s es = 0 := by
  induction es with
  | nil => intro s _ _; rfl
  | cons e es ih =>
      intro s hno hr
      cases e with
      | startCall url =>
          have hstart : StartRecording s url =
              (s, some "recording already in progress") := by
            simp [StartRecording, hr]
          simp only [succCount, hstart]
          simpa using ih s (noFinishEvent_cons _ _ hno) hr
      | finish =>
          simp [noFinishEvent, List.all_cons] at hno
      | stopCall =>
          have h2 := ih (StopRecording s) (noFinishEvent_cons _ _ hno)
          rw [stopRecording_isRecording] at h2
          simpa [succCount, stepEvent] using h2 hr

theorem succCount_idle (es : List RecEvent) : ∀ s : RecorderState,
    noFinishEvent es = true → succCount s es ≤ 1 := by
  induction es with
  | nil => intro s _; simp [succCount]
  | cons e es ih =>
      intro s hno
      cases e with
      | startCall url =>
          by_cases hr : s.isRecording = true
          · have hstart : StartRecording s url =
                (s, some "recording already in progress") := by
              simp [StartRecording, hr]
            simp only [succCount, hstart]
            simpa using ih s (noFinishEvent_cons _ _ hno)
          · have hr2 : s.isRecording = false := by simpa using hr
            have hstart : StartRecording s url =
                (⟨true, some (), false⟩, none) := by
              simp [StartRecording, hr2]
            have h0 : succCount (⟨true, some (), false⟩ : RecorderState) es = 0 :=
              succCount_active es ⟨true, some (), false⟩
                (noFinishEvent_cons _ _ hno) rfl
            simp only [succCount, hstart, h0]
            simp
      | finish =>
          simp [noFinishEvent, List.all_cons] at hno
      | stopCall =>
          have h2 := ih (StopRecording s) (noFinishEvent_cons _ _ hno)
          simpa [succCount, stepEvent] using h2

theorem stopRecording_stable (s : RecorderState) (h : s.isRecording = true)
    (hc : s.cancelFunc.isSome = true) :
    StopRecording (StopRecording s) = StopRecording s := by
  unfold StopRecording
  simp [h, hc]

theorem iterStop_stable (n : Nat) : ∀ s : RecorderState,
    s.isRecording = true → s.cancelFunc.isSome = true →
    iterStop n (StopRecording s) = StopRecording s := by
  induction n with
  | zero => intro s _ _; rfl
  | succ n ih =>
      intro s h hc
      have h1 : (StopRecording s).isRecording = true := by
        rw [stopRecording_isRecording]; exact h
      have h2 : (StopRecording s).cancelFunc.isSome = true := by
        unfold StopRecording
        simp [h, hc]
      calc iterStop (n + 1) (StopRecording s)
          = iterStop n (StopRecording (StopRecording s)) := rfl
        _ = StopRecording (StopRecording s) := ih (StopRecording s) h1 h2
        _ = StopRecording s := stopRecording_stable s h hc

theorem goTrim_subset (s : List Char) : ∀ c ∈ goTrim s, c ∈ s := by
  intro c hc
  unfold goTrim at hc
  rw [List.mem_reverse] at hc
  have h1 := (List.dropWhile_sublist (l := (s.dropWhile trimCut).reverse) trimCut).mem hc
  rw [List.mem_reverse] at h1
  exact (List.dropWhile_sublist trimCut).mem h1

/-! ## Claim theorems -/

/-- Claim C1: in every state reachable by serialized lock-protected
sections from the fresh recorder, the stored cancel handle is non-null
iff the active flag is set; in every sequence of calls in which the
slot never returns to idle, at most one `StartRecording` call succeeds;
and every `StartRecording` call that finds the slot active returns the
already-recording error and changes nothing. -/
theorem recorder_slot_mutex :
    (∀ es : List RecEvent,
        (runEvents initialRecorder es).cancelFunc.isSome =
          (runEvents initialRecorder es).isRecording) ∧
    (∀ es : List RecEvent, noFinishEvent es = true →
        succCount initialRecorder es ≤ 1) ∧
    (∀ s : RecorderState, ∀ url : String, s.isRecording = true →
        StartRecording s url = (s, some "recording already in progress")) := by
  refine ⟨fun es => runEvents_inv es initialRecorder rfl, fun es h => ?_, ?_⟩
  · exact succCount_idle es initialRecorder h
  · intro s url h
    simp [StartRecording, h]

/-- Witness for C1 at a concrete event sequence: two concurrent start
calls serialized one after the other, only the first succeeds. -/
theorem recorder_slot_mutex_witness :
    succCount initialRecorder
      [RecEvent.startCall "http://e.example/s", RecEvent.startCall "http://e.example/s",
       RecEvent.stopCall] ≤ 1 ∧
    StartRecording ⟨true, some (), false⟩ "http://e.example/s" =
      (⟨true, some (), false⟩, some "recording already in progress") :=
  ⟨recorder_slot_mutex.2.1
      [RecEvent.startCall "http://e.example/s", RecEvent.startCall "http://e.example/s",
       RecEvent.stopCall] rfl,
   recorder_slot_mutex.2.2 ⟨true, some (), false⟩ "http://e.example/s" rfl⟩

/-- Claim C6: `StopRecording` on an idle slot changes nothing, and any
positive number of `StopRecording` calls on an active slot has exactly
the effect of the first one: the recording context becomes cancelled,
the recorder fields stay untouched, and further calls are no-ops. -/
theorem stopRecording_idempotent :
    (∀ s : RecorderState, s.isRecording = false → StopRecording s = s) ∧
    (∀ s : RecorderState, s.isRecording = true → s.cancelFunc.isSome = true →
        (StopRecording s).ctxCancelled = true ∧
        (StopRecording s).isRecording = s.isRecording ∧
        (StopRecording s).cancelFunc = s.cancelFunc ∧
        ∀ n : Nat, iterStop (n + 1) s = StopRecording s) := by
  constructor
  · intro s h
    unfold StopRecording
    simp [h]
  · intro s h hc
    refine ⟨?_, stopRecording_isRecording s, ?_, fun n => ?_⟩
    · unfold StopRecording
      simp [h, hc]
    · unfold StopRecording
      simp [h, hc]
    · calc iterStop (n + 1) s = iterStop n (StopRecording s) := rfl
        _ = StopRecording s := iterStop_stable n s h hc

/-- Witness for C6: a concrete idle state is unchanged, and on a
concrete active state three calls equal one call, which cancels. -/
theorem stopRecording_idempotent_witness :
    StopRecording ⟨false, none, false⟩ = ⟨false, none, false⟩ ∧
    (StopRecording ⟨true, some (), false⟩).ctxCancelled = true ∧
    iterStop 3 ⟨true, some (), false⟩ = StopRecording ⟨true, some (), false⟩ :=
  ⟨stopRecording_idempotent.1 ⟨false, none, false⟩ rfl,
   (stopRecording_idempotent.2 ⟨true, some (), false⟩ rfl rfl).1,
   (stopRecording_idempotent.2 ⟨true, some (), false⟩ rfl rfl).2.2.2 2⟩

/-- Claim C10: `StartRecording` never inspects the stream URL: on an
idle slot it returns nil for every URL, its result does not depend on
the URL at all, and request-construction or connection failures only
show up as errors of `downloadStream`, which runs in the spawned task. -/
theorem startRecording_no_url_validation :
    (∀ s : RecorderState, ∀ url : String, s.isRecording = false →
        (StartRecording s url).2 = none) ∧
    (∀ s : RecorderState, ∀ u1 u2 : String, StartRecording s u1 = StartRecording s u2) ∧
    downloadStream HttpStep.buildErr = (0, some DlError.failure) ∧
    downloadStream HttpStep.doErr = (0, some DlError.failure) := by
  refine ⟨?_, ?_, rfl, rfl⟩
  · intro s url h
    simp [StartRecording, h]
  · intro s u1 u2
    unfold StartRecording
    split <;> rfl

/-- Witness for C10: a malformed URL is accepted on an idle slot. -/
theorem startRecording_no_url_validation_witness :
    (StartRecording initialRecorder "ht!tp://not a url/%%%").2 = none :=
  startRecording_no_url_validation.1 initialRecorder "ht!tp://not a url/%%%" rfl

/-- Claim C9: the probe maps a failed connection to not-live with nil
error, a request-construction failure to a non-nil error, and a
response to nil error with live exactly on status 200. -/
theorem isLive_error_mapping :
    IsLiveWithContext ProbeOutcome.connErr = ⟨false, none⟩ ∧
    (IsLiveWithContext ProbeOutcome.buildErr).err.isSome = true ∧
    (IsLiveWithContext ProbeOutcome.buildErr).isLive = false ∧
    (∀ st : Nat, (IsLiveWithContext (ProbeOutcome.response st)).err = none) ∧
    (∀ st : Nat, (IsLiveWithContext (ProbeOutcome.response st)).isLive = decide (st = 200)) := by
  refine ⟨rfl, rfl, rfl, fun st => ?_, fun st => ?_⟩
  · have h : IsLiveWithContext (ProbeOutcome.response st) =
        if st = 200 then ⟨true, none⟩ else ⟨false, none⟩ := rfl
    rw [h]
    split <;> rfl
  · have h : IsLiveWithContext (ProbeOutcome.response st) =
        if st = 200 then ⟨true, none⟩ else ⟨false, none⟩ := rfl
    rw [h]
    split <;> simp_all

/-- Claim C2 is violated by the code: with the lifecycle context alive
and an active recording whose own cancel has not been invoked, calling
`Scheduler.Stop` cancels the loop context, and since `checkAndRecord`
passed that context to `StartRecording`, the recording context derived
from it becomes done: the scheduler does cancel the in-progress
recording.  The recording context was not done before the call, and
`Stop` touches no other cancel flag. -/
theorem schedulerStop_cancels_active_recording :
    recordingCtxDone ⟨false, false, false⟩ = false ∧
    recordingCtxDone (schedulerStop ⟨false, false, false⟩) = true ∧
    schedulerStop ⟨false, false, false⟩ = ⟨false, true, false⟩ := by
  decide

/-- Counterexample to claim C3 as stated: a download that fails with a
non-cancellation I/O error after writing five bytes, with every
filesystem call succeeding, publishes nothing but leaves the temp file
on disk — it is preserved for inspection, not discarded. -/
theorem recordStream_io_error_keeps_temp :
    (recordStream ⟨true, true, true, true, true⟩ (5, some DlError.failure)).published
        = false ∧
    (recordStream ⟨true, true, true, true, true⟩ (5, some DlError.failure)).tempPreserved
        = true := by
  decide

/-- Claim C3 amended: an attempt ending in an I/O error other than
cancellation or a normal disconnect publishes nothing and preserves the
temp file for inspection; an attempt that ends without such an error
having written zero bytes is discarded silently, with the temp file
removed and no public artifact. -/
theorem recordStream_failure_and_empty :
    (∀ fs : FsOracle, ∀ bytes : Nat, fs.tempCreateOk = true →
        recordStream fs (bytes, some DlError.failure) = ⟨true, false, true⟩) ∧
    (∀ fs : FsOracle, fs.tempCreateOk = true → fs.removeOk = true →
        recordStream fs (0, some DlError.canceled) = ⟨true, false, false⟩) ∧
    (∀ fs : FsOracle, fs.tempCreateOk = true → fs.closeOk = true → fs.removeOk = true →
        recordStream fs (0, none) = ⟨true, false, false⟩) := by
  refine ⟨?_, ?_, ?_⟩
  · intro fs bytes h
    simp [recordStream, h]
  · intro fs h hrm
    simp [recordStream, h, afterDownload, hrm]
  · intro fs h hcl hrm
    simp [recordStream, h, hcl, afterDownload, hrm]

/-- Witness for C3 (amended) at concrete oracles. -/
theorem recordStream_failure_and_empty_witness :
    recordStream ⟨true, true, false, false, false⟩ (9, some DlError.failure)
        = ⟨true, false, true⟩ ∧
    recordStream ⟨true, false, true, true, true⟩ (0, some DlError.canceled)
        = ⟨true, false, false⟩ ∧
    recordStream ⟨true, true, true, true, true⟩ (0, none)
        = ⟨true, false, false⟩ :=
  ⟨recordStream_failure_and_empty.1 ⟨true, true, false, false, false⟩ 9 rfl,
   recordStream_failure_and_empty.2.1 ⟨true, false, true, true, true⟩ rfl rfl,
   recordStream_failure_and_empty.2.2 ⟨true, true, true, true, true⟩ rfl rfl rfl⟩

/-- Claim C5: publish tries `os.Rename` first and falls back to copy
exactly when the rename fails; when the fallback copy succeeds the
source temp file is removed by the deferred cleanup; when the fallback
copy also fails nothing is published, the temp file stays on disk, and
the recording task still terminates normally with the slot released
(the error is only logged). -/
theorem publish_fallback_spec :
    (∀ c : Bool, moveToFinalLocation true c = MoveOutcome.renamed) ∧
    moveToFinalLocation false true = MoveOutcome.copied ∧
    moveToFinalLocation false false = MoveOutcome.failed ∧
    (∀ fs : FsOracle, ∀ bytes : Nat, fs.tempCreateOk = true → fs.closeOk = true →
        fs.renameOk = false → fs.copyOk = true → fs.removeOk = true → bytes ≠ 0 →
        recordStream fs (bytes, none) = ⟨true, true, false⟩) ∧
    (∀ fs : FsOracle, ∀ bytes : Nat, fs.tempCreateOk = true → fs.closeOk = true →
        fs.renameOk = false → fs.copyOk = false → bytes ≠ 0 →
        recordStream fs (bytes, none) = ⟨true, false, true⟩) := by
  refine ⟨fun c => rfl, rfl, rfl, ?_, ?_⟩
  · intro fs bytes h hcl hrn hcp hrm hb
    simp [recordStream, h, hcl, afterDownload, hb, moveToFinalLocation, hrn, hcp, hrm]
  · intro fs bytes h hcl hrn hcp hb
    simp [recordStream, h, hcl, afterDownload, hb, moveToFinalLocation, hrn, hcp]

/-- Witness for C5 at concrete oracles: copy fallback succeeding and
copy fallback failing. -/
theorem publish_fallback_spec_witness :
    recordStream ⟨true, true, false, true, true⟩ (7, none) = ⟨true, true, false⟩ ∧
    recordStream ⟨true, true, false, false, true⟩ (7, none) = ⟨true, false, true⟩ :=
  ⟨publish_fallback_spec.2.2.2.1 ⟨true, true, false, true, true⟩ 7 rfl rfl rfl rfl rfl
      (by decide),
   publish_fallback_spec.2.2.2.2 ⟨true, true, false, false, true⟩ 7 rfl rfl rfl rfl
      (by decide)⟩

/-- Counterexample to claim C4 as stated: the double quote is a
filesystem-unsafe character, yet `sanitizeFilename` turns it into the
apostrophe character (code 39), which is neither an underscore nor a
hyphen. -/
theorem sanitizeFilename_quote_not_underscore :
    sanitizeFilename "a\"b".toList = ['a', Char.ofNat 39, 'b'] ∧
    isUnsafeChar '"' = true ∧
    (Char.ofNat 39 == '_') = false ∧
    (Char.ofNat 39 == '-') = false := by
  decide

/-- Claim C4 amended: `sanitizeFilename` replaces the space by an
underscore, each of slash, backslash, colon, star, question mark,
less-than, greater-than and vertical bar by a hyphen, and the double
quote by an apostrophe, leaves safe characters unchanged, and then
trims leading and trailing separator characters (underscore, hyphen,
dot, space); consequently the output never contains a raw unsafe
character and never begins or ends with a separator character. -/
theorem sanitizeFilename_spec :
    (∀ s : List Char, ∀ c ∈ sanitizeFilename s, isUnsafeChar c = false) ∧
    (∀ s : List Char, ∀ x : Char, (sanitizeFilename s).head? = some x →
        trimCut x = false) ∧
    (∀ s : List Char, ∀ x : Char, (sanitizeFilename s).getLast? = some x →
        trimCut x = false) ∧
    replaceChar ' ' = '_' ∧ replaceChar '/' = '-' ∧ replaceChar '\\' = '-' ∧
    replaceChar ':' = '-' ∧ replaceChar '*' = '-' ∧ replaceChar '?' = '-' ∧
    replaceChar '"' = Char.ofNat 39 ∧ replaceChar '<' = '-' ∧
    replaceChar '>' = '-' ∧ replaceChar '|' = '-' ∧
    (∀ c : Char, isUnsafeChar c = false → replaceChar c = c) := by
  refine ⟨?_, ?_, ?_, rfl, rfl, rfl, rfl, rfl, rfl, rfl, rfl, rfl, rfl, ?_⟩
  · intro s c hc
    exact filenameSanitizerReplace_not_unsafe s c (goTrim_subset _ c hc)
  · intro s x h
    exact goTrim_head _ x h
  · intro s x h
    exact goTrim_getLast _ x h
  · intro c h
    simp only [isUnsafeChar, Bool.or_eq_false_iff, beq_eq_false_iff_ne, ne_eq] at h
    obtain ⟨⟨⟨⟨⟨⟨⟨⟨⟨h1, h2⟩, h3⟩, h4⟩, h5⟩, h6⟩, h7⟩, h8⟩, h9⟩, h10⟩ := h
    simp [replaceChar, h1, h2, h3, h4, h5, h6, h7, h8, h9, h10]

theorem cleanLoop_filter (cutoff : Int) (entries : List DirEntry)
    (h : ∀ e ∈ entries, e.statOk = true ∧ e.removeOk = true) :
    cleanLoop cutoff entries = (entries.filter (oldMp3 cutoff)).length := by
  induction entries with
  | nil => rfl
  | cons e es ih =>
      have he := h e (List.mem_cons_self e es)
      have hes : ∀ x ∈ es, x.statOk = true ∧ x.removeOk = true :=
        fun x hx => h x (List.mem_cons_of_mem e hx)
      have ih2 := ih hes
      by_cases hd : e.isDir = true
      · have hold : oldMp3 cutoff e = false := by
          simp [oldMp3, hd]
        simp [cleanLoop, hd, List.filter_cons, hold, ih2]
      · have hd2 : e.isDir = false := by simpa using hd
        by_cases hsuf : hasMp3Suffix e.name = true
        · by_cases hmt : e.modTime < cutoff
          · have hold : oldMp3 cutoff e = true := by
              simp [oldMp3, hd2, hsuf, hmt]
            simp [cleanLoop, hd2, hsuf, he.1, he.2, hmt, List.filter_cons, hold, ih2]
            omega
          · have hold : oldMp3 cutoff e = false := by
              simp [oldMp3, hd2, hsuf, hmt]
            simp [cleanLoop, hd2, hsuf, he.1, hmt, List.filter_cons, hold, ih2]
        · have hsuf2 : hasMp3Suffix e.name = false := by simpa using hsuf
          have hold : oldMp3 cutoff e = false := by
            simp [oldMp3, hsuf2]
          simp [cleanLoop, hd2, hsuf2, List.filter_cons, hold, ih2]

/-- Claim C7: a directory-read failure returns zero deletions plus the
error and affects only this call; the loop reaches the delete only for
non-directory entries with the recording extension whose modification
time is strictly before `now - maxAge`; and when stat and remove
succeed on every entry, the call deletes exactly the set of such
entries and returns its size with a nil error. -/
theorem cleanOldRecordings_exact :
    (∀ now maxAge : Int, ∀ entries : List DirEntry,
        CleanOldRecordings now maxAge false entries =
          (0, some "failed to read recordings directory")) ∧
    (∀ cutoff : Int, ∀ e : DirEntry, removeAttempted cutoff e = true →
        e.isDir = false ∧ hasMp3Suffix e.name = true ∧ e.modTime < cutoff) ∧
    (∀ now maxAge : Int, ∀ entries : List DirEntry,
        (∀ e ∈ entries, e.statOk = true ∧ e.removeOk = true) →
        CleanOldRecordings now maxAge true entries =
          ((entries.filter (oldMp3 (now - maxAge))).length, none)) := by
  refine ⟨fun now maxAge entries => rfl, ?_, ?_⟩
  · intro cutoff e h
    simp only [removeAttempted, Bool.and_eq_true, Bool.not_eq_true',
      decide_eq_true_eq] at h
    exact ⟨h.1.1.1, h.1.1.2, h.2⟩
  · intro now maxAge entries h
    simp only [CleanOldRecordings]
    rw [cleanLoop_filter (now - maxAge) entries h]
    rfl

/-- Witness for C7: a listing with one old recording, one recent
recording, one subdirectory and one old non-recording file deletes
exactly the one old recording. -/
theorem cleanOldRecordings_exact_witness :
    CleanOldRecordings 10000 3600 true
      [⟨"a.mp3".toList, false, 0, true, true⟩,
       ⟨"b.MP3".toList, false, 9000, true, true⟩,
       ⟨"c.mp3".toList, true, 0, true, true⟩,
       ⟨"d.txt".toList, false, 0, true, true⟩] = (1, none) := by
  rw [cleanOldRecordings_exact.2.2 10000 3600
    [⟨"a.mp3".toList, false, 0, true, true⟩,
     ⟨"b.MP3".toList, false, 9000, true, true⟩,
     ⟨"c.mp3".toList, true, 0, true, true⟩,
     ⟨"d.txt".toList, false, 0, true, true⟩] (by decide)]
  decide

/-- Claim C8: the sweep fires exactly when retention is enabled and at
least one hour has passed since `lastCleanup`; firing stores the
current time regardless of the sweep call's outcome, which the
resulting state never depends on; two requests less than one hour
apart invoke the scan at most once; and a request an hour or more
after a fired one fires again. -/
theorem retention_throttle :
    (∀ s : SchedulerRetention, ∀ now : Int, ∀ e : Bool,
        0 < s.retentionMaxAge → oneHour ≤ now - s.lastCleanup →
        cleanupIfNeeded s now e = ⟨s.retentionMaxAge, now, s.sweeps + 1⟩) ∧
    (∀ s : SchedulerRetention, ∀ now : Int, ∀ e : Bool,
        s.retentionMaxAge ≤ 0 ∨ now - s.lastCleanup < oneHour →
        cleanupIfNeeded s now e = s) ∧
    (∀ s : SchedulerRetention, ∀ now : Int, ∀ e1 e2 : Bool,
        cleanupIfNeeded s now e1 = cleanupIfNeeded s now e2) ∧
    (∀ s : SchedulerRetention, ∀ t1 t2 : Int, ∀ e1 e2 : Bool,
        t1 ≤ t2 → t2 - t1 < oneHour →
        (cleanupIfNeeded (cleanupIfNeeded s t1 e1) t2 e2).sweeps ≤ s.sweeps + 1) ∧
    (∀ s : SchedulerRetention, ∀ t1 t2 : Int, ∀ e1 e2 : Bool,
        0 < s.retentionMaxAge → oneHour ≤ t1 - s.lastCleanup →
        oneHour ≤ t2 - t1 →
        (cleanupIfNeeded (cleanupIfNeeded s t1 e1) t2 e2).sweeps = s.sweeps + 2) := by
  refine ⟨?_, ?_, ?_, ?_, ?_⟩
  · intro s now e h1 h2
    unfold cleanupIfNeeded
    rw [if_neg]
    omega
  · intro s now e h
    unfold cleanupIfNeeded
    rw [if_pos h]
  · intro s now e1 e2
    rfl
  · intro s t1 t2 e1 e2 h1 h2
    by_cases hc1 : s.retentionMaxAge ≤ 0 ∨ t1 - s.lastCleanup < oneHour
    · have hskip : cleanupIfNeeded s t1 e1 = s := by
        unfold cleanupIfNeeded
        rw [if_pos hc1]
      rw [hskip]
      unfold cleanupIfNeeded
      split
      · exact Nat.le_succ _
      · exact Nat.le_refl _
    · have hfire : cleanupIfNeeded s t1 e1 = ⟨s.retentionMaxAge, t1, s.sweeps + 1⟩ := by
        unfold cleanupIfNeeded
        rw [if_neg hc1]
      rw [hfire]
      unfold cleanupIfNeeded
      rw [if_pos]
      refine Or.inr ?_
      show t2 - t1 < oneHour
      exact h2
  · intro s t1 t2 e1 e2 h1 h2 h3
    have hfire : cleanupIfNeeded s t1 e1 = ⟨s.retentionMaxAge, t1, s.sweeps + 1⟩ := by
      unfold cleanupIfNeeded
      rw [if_neg (by omega)]
    rw [hfire]
    unfold cleanupIfNeeded
    rw [if_neg]
    push_neg
    refine ⟨?_, ?_⟩
    · show 0 < s.retentionMaxAge
      exact h1
    · show oneHour ≤ t2 - t1
      exact h3

/-- Witness for C8 at concrete states and times: a fired sweep at time
4000, a throttled second request at 4600, and a fired second request at
8000. -/
theorem retention_throttle_witness :
    cleanupIfNeeded ⟨86400, 0, 0⟩ 4000 false = ⟨86400, 4000, 1⟩ ∧
    cleanupIfNeeded ⟨86400, 4000, 1⟩ 4600 true = ⟨86400, 4000, 1⟩ ∧
    (cleanupIfNeeded (cleanupIfNeeded ⟨86400, 0, 0⟩ 4000 false) 4600 true).sweeps ≤ 1 ∧
    (cleanupIfNeeded (cleanupIfNeeded ⟨86400, 0, 0⟩ 4000 false) 8000 true).sweeps = 2 :=
  ⟨retention_throttle.1 ⟨86400, 0, 0⟩ 4000 false (by decide) (by decide),
   retention_throttle.2.1 ⟨86400, 4000, 1⟩ 4600 true (by decide),
   retention_throttle.2.2.2.1 ⟨86400, 0, 0⟩ 4000 4600 false true (by decide) (by decide),
   retention_throttle.2.2.2.2 ⟨86400, 0, 0⟩ 4000 8000 false true (by decide) (by decide)
     (by decide)⟩

/-- Witness for C4 (amended) on the scenario filename from the spec. -/
theorem sanitizeFilename_spec_witness :
    isUnsafeChar 'n' = false ∧ trimCut 's' = false ∧ trimCut '3' = false :=
  ⟨sanitizeFilename_spec.1 "stream name:with/bad*chars.mp3".toList 'n' (by decide),
   sanitizeFilename_spec.2.1 "stream name:with/bad*chars.mp3".toList 's' (by decide),
   sanitizeFilename_spec.2.2.1 "stream name:with/bad*chars.mp3".toList '3' (by decide)⟩

end IcecastRipper
